import Mathlib

/-!
Verification of the whisperAPI test-fixture generator scripts.

The repository holds two standalone command-line scripts:

* `makewave.py` — cloud-TTS (gTTS) fixture generator, extended-formats
  variant: synthesizes `test.mp3`, normalizes the decoded buffer to
  48000 Hz / mono / 16-bit, then exports `test.wav`, `test.ogg`,
  `test.opus` (via the external `opusenc` binary), `test.flac`, and a
  best-effort `test.aac`.
* `selfhosted-makewave.py` — self-hosted (Coqui TTS) generator: writes
  `test.wav` via the model, re-reads it, normalizes to 16000 Hz / mono /
  16-bit, and overwrites `test.wav`.

Each script is embedded as a pure function from the argument vector and
an *oracle* (the outcomes of every external call: TTS synthesis, pydub
exports, and the external encoder's exit status) to a `RunResult`: the
ordered trace of observable events (stdout prints, file writes, file
deletions, subprocess spawns, TTS invocations) together with the process
exit code.  An uncaught Python exception terminates the interpreter with
exit status 1, which the embedding mirrors by returning the trace so far
with exit code 1.
-/

/-- An in-memory audio buffer as handled by pydub's `AudioSegment`:
sample rate in Hz, channel count, and sample width in bytes. -/
structure Audio where
  frameRate : Nat
  channels : Nat
  sampleWidth : Nat
deriving Repr, DecidableEq

/-- `AudioSegment.set_frame_rate`. -/
def Audio.setFrameRate (a : Audio) (r : Nat) : Audio :=
  { a with frameRate := r }

/-- `AudioSegment.set_channels`. -/
def Audio.setChannels (a : Audio) (c : Nat) : Audio :=
  { a with channels := c }

/-- `AudioSegment.set_sample_width`. -/
def Audio.setSampleWidth (a : Audio) (w : Nat) : Audio :=
  { a with sampleWidth := w }

/-- The content a script writes to a file: the container format, the
optional codec argument, the raw passthrough parameter list handed to the
underlying encoder, and the state of the audio buffer at export time. -/
structure FileContent where
  format : String
  codec : Option String
  params : List String
  buf : Audio
deriving Repr, DecidableEq

/-- One observable effect of a script run. -/
inductive Event where
  | print (line : String)
  | write (path : String) (content : FileContent)
  | delete (path : String)
  | spawn (binary : String) (args : List String)
  | tts (text : String)
  | loadModel (modelId : String)
deriving Repr, DecidableEq

/-- The observable outcome of one script invocation: the ordered event
trace and the process exit code (0 = success). -/
structure RunResult where
  trace : List Event
  exitCode : Nat
deriving Repr, DecidableEq

/-- Outcomes of the external calls made by `makewave.py`: whether gTTS
synthesis succeeds, the characteristics of the synthesized MP3 audio,
whether each pydub export succeeds, the exit status of the spawned
`opusenc` process, and the error detail carried by a failed AAC export. -/
structure MakewaveOracle where
  ttsOk : Bool
  mp3Audio : Audio
  wavExportOk : Bool
  oggExportOk : Bool
  opusencExit : Nat
  flacExportOk : Bool
  aacExportOk : Bool
  aacError : String
deriving Repr, DecidableEq

/-- Outcomes of the external calls made by `selfhosted-makewave.py`:
whether the Coqui model loads, whether synthesis succeeds, the
characteristics of the synthesized WAV audio, and whether the final
pydub export succeeds. -/
structure SelfhostedOracle where
  loadOk : Bool
  ttsOk : Bool
  synthAudio : Audio
  exportOk : Bool
deriving Repr, DecidableEq

/-- The usage line printed by `makewave.py` when no text is supplied. -/
def makewaveUsage : String := "Usage: python makewave.py \"Your text here\""

/-- The usage line printed by `selfhosted-makewave.py` when no text is
supplied (its usage text references `generate_wav.py`). -/
def selfhostedUsage : String := "Usage: python generate_wav.py \"Your text here\""

/-- The fixed prefix of the warning `makewave.py` prints when the AAC
export raises; the underlying error detail is appended to it. -/
def aacWarn : String :=
  "Warning: Failed to create AAC file (ffmpeg/aac encoder may not be available): "

/-- The fixed model identifier selected by `selfhosted-makewave.py`. -/
def model_name : String := "tts_models/en/ljspeech/glow-tts"

/-- Shallow embedding of `makewave.py`, line by line.  `argv` is the full
Python `sys.argv` (program name first).  Each `if` on an oracle field
models the corresponding external call raising an uncaught exception
(exit code 1) versus succeeding. -/
def makewave (argv : List String) (o : MakewaveOracle) : RunResult :=
  -- if len(sys.argv) < 2: print usage; sys.exit(1)
  if argv.length < 2 then
    ⟨[Event.print makewaveUsage], 1⟩
  else
    -- text = " ".join(sys.argv[1:])
    let text := " ".intercalate (argv.drop 1)
    -- tts = gTTS(text, lang="en"); tts.save("test.mp3")
    let t1 := [Event.tts text]
    if o.ttsOk = false then ⟨t1, 1⟩ else
    let t2 := t1 ++ [Event.write "test.mp3" ⟨"mp3", none, [], o.mp3Audio⟩]
    -- audio = AudioSegment.from_mp3(mp3_path)
    -- audio = audio.set_frame_rate(48000).set_channels(1).set_sample_width(2)
    let audio := ((o.mp3Audio.setFrameRate 48000).setChannels 1).setSampleWidth 2
    -- audio.export("test.wav", format="wav"); print(...)
    if o.wavExportOk = false then ⟨t2, 1⟩ else
    let t3 := t2 ++ [Event.write "test.wav" ⟨"wav", none, [], audio⟩,
                     Event.print "WAV file saved as test.wav"]
    -- audio.export("test.ogg", format="ogg", codec="libvorbis",
    --              parameters=["-ar", "16000", "-ac", "1"]); print(...)
    if o.oggExportOk = false then ⟨t3, 1⟩ else
    let t4 := t3 ++ [Event.write "test.ogg"
                       ⟨"ogg", some "libvorbis", ["-ar", "16000", "-ac", "1"], audio⟩,
                     Event.print "OGG/Vorbis file saved as test.ogg"]
    -- subprocess.run(["opusenc", "--bitrate", "64", wav_path, opus_path], check=True)
    let t5 := t4 ++ [Event.spawn "opusenc" ["--bitrate", "64", "test.wav", "test.opus"]]
    if o.opusencExit ≠ 0 then ⟨t5, 1⟩ else
    let t6 := t5 ++ [Event.print "Opus file saved as test.opus"]
    -- audio.export("test.flac", format="flac", parameters=["-ar", "16000", "-ac", "1"])
    if o.flacExportOk = false then ⟨t6, 1⟩ else
    let t7 := t6 ++ [Event.write "test.flac"
                       ⟨"flac", none, ["-ar", "16000", "-ac", "1"], audio⟩,
                     Event.print "FLAC file saved as test.flac"]
    -- try: audio.export("test.aac", ...) except Exception as e: print(warning)
    let t8 :=
      if o.aacExportOk then
        t7 ++ [Event.write "test.aac"
                 ⟨"aac", some "aac", ["-ar", "16000", "-ac", "1", "-b:a", "128k"], audio⟩,
               Event.print "AAC file saved as test.aac"]
      else
        t7 ++ [Event.print (aacWarn ++ o.aacError)]
    -- print("\nAll audio files generated successfully!")
    ⟨t8 ++ [Event.print "\nAll audio files generated successfully!"], 0⟩

/-- Shallow embedding of `selfhosted-makewave.py`, line by line. -/
def selfhostedMakewave (argv : List String) (o : SelfhostedOracle) : RunResult :=
  -- if len(sys.argv) < 2: print usage; sys.exit(1)
  if argv.length < 2 then
    ⟨[Event.print selfhostedUsage], 1⟩
  else
    -- text = " ".join(sys.argv[1:])
    let text := " ".intercalate (argv.drop 1)
    -- tts = TTS(model_name)
    let t1 := [Event.loadModel model_name]
    if o.loadOk = false then ⟨t1, 1⟩ else
    -- tts.tts_to_file(text=text, file_path="test.wav")
    let t2 := t1 ++ [Event.tts text]
    if o.ttsOk = false then ⟨t2, 1⟩ else
    let t3 := t2 ++ [Event.write "test.wav" ⟨"wav", none, [], o.synthAudio⟩]
    -- audio = AudioSegment.from_wav(wav_path)
    -- audio = audio.set_frame_rate(16000).set_channels(1).set_sample_width(2)
    let audio := ((o.synthAudio.setFrameRate 16000).setChannels 1).setSampleWidth 2
    -- audio.export(wav_path, format="wav")
    if o.exportOk = false then ⟨t3, 1⟩ else
    let t4 := t3 ++ [Event.write "test.wav" ⟨"wav", none, [], audio⟩]
    -- print of the WAV confirmation line
    ⟨t4 ++ [Event.print "WAV file saved as test.wav"], 0⟩

/-- The stdout lines of a run, in print order. -/
def RunResult.stdout (r : RunResult) : List String :=
  r.trace.filterMap fun e =>
    match e with
    | Event.print l => some l
    | _ => none

/-- All file writes in a trace, in order: (path, content) pairs. -/
def writesOf (t : List Event) : List (String × FileContent) :=
  t.filterMap fun e =>
    match e with
    | Event.write p c => some (p, c)
    | _ => none

/-- The content last written to a path during a trace, if any. -/
def lastWrite (t : List Event) (p : String) : Option FileContent :=
  ((((writesOf t).filter fun x => x.1 == p)).map fun x => x.2).getLast?

/-- All file deletions in a trace, in order. -/
def deletesOf (t : List Event) : List String :=
  t.filterMap fun e =>
    match e with
    | Event.delete p => some p
    | _ => none

/-- The texts handed to the TTS backend during a trace, in order. -/
def ttsTexts (t : List Event) : List String :=
  t.filterMap fun e =>
    match e with
    | Event.tts s => some s
    | _ => none

/-- Whether a file exists after the trace: it was written at some point
and not deleted afterwards (files are only created by writes). -/
def existsAfter (t : List Event) (p : String) : Bool :=
  t.foldl
    (fun b e =>
      match e with
      | Event.write q _ => if q == p then true else b
      | Event.delete q => if q == p then false else b
      | _ => b)
    false

/-- A fully cooperative oracle for `makewave.py`: every external call
succeeds; the synthesized MP3 decodes to 24000 Hz stereo audio. -/
def mwOracleOk : MakewaveOracle :=
  ⟨true, ⟨24000, 2, 2⟩, true, true, 0, true, true, ""⟩

/-- An oracle for `makewave.py` where only the AAC export raises. -/
def mwOracleAacFail : MakewaveOracle :=
  ⟨true, ⟨24000, 2, 2⟩, true, true, 0, true, false, "encoder not found"⟩

/-- An oracle for `makewave.py` where only the FLAC export raises. -/
def mwOracleFlacFail : MakewaveOracle :=
  ⟨true, ⟨24000, 2, 2⟩, true, true, 0, false, true, ""⟩

/-- An oracle for `makewave.py` where `opusenc` exits with status 1. -/
def mwOracleOpusFail : MakewaveOracle :=
  ⟨true, ⟨24000, 2, 2⟩, true, true, 1, true, true, ""⟩

/-- A fully cooperative oracle for `selfhosted-makewave.py`: the model
loads, synthesis yields 22050 Hz mono audio, and the export succeeds. -/
def shOracleOk : SelfhostedOracle :=
  ⟨true, true, ⟨22050, 1, 2⟩, true⟩

/-- Helper: the usage line of `makewave.py` is never equal to the AAC
warning line, whatever the appended error detail (the warning prefix
alone is already longer than the whole usage line). -/
theorem usage_ne_aacWarn (e : String) :
    ("Usage: python makewave.py \"Your text here\"" : String) ≠ aacWarn ++ e := by
  intro h
  have hlen := congrArg String.length h
  rw [String.length_append] at hlen
  have h2 : aacWarn.length = 78 := rfl
  have h1 : ("Usage: python makewave.py \"Your text here\"" : String).length = 42 := rfl
  omega

/-- Helper: a `makewave.py` run that exits with status 0 passed the
argument-count check and every mandatory external step succeeded. -/
theorem makewave_exit_zero (argv : List String) (o : MakewaveOracle)
    (h : (makewave argv o).exitCode = 0) :
    2 ≤ argv.length ∧ o.ttsOk = true ∧ o.wavExportOk = true ∧ o.oggExportOk = true ∧
      o.opusencExit = 0 ∧ o.flacExportOk = true := by
  unfold makewave at h
  by_cases c1 : argv.length < 2
  · simp [c1] at h
  · by_cases c2 : o.ttsOk = false
    · simp [c1, c2] at h
    · by_cases c3 : o.wavExportOk = false
      · simp [c1, c2, c3] at h
      · by_cases c4 : o.oggExportOk = false
        · simp [c1, c2, c3, c4] at h
        · by_cases c5 : o.opusencExit = 0
          · by_cases c6 : o.flacExportOk = false
            · simp [c1, c2, c3, c4, c5, c6] at h
            · refine ⟨Nat.not_lt.mp c1, ?_, ?_, ?_, c5, ?_⟩ <;>
                simp_all [Bool.not_eq_false]
          · simp [c1, c2, c3, c4, c5] at h

/-- Helper: a `selfhosted-makewave.py` run that exits with status 0
passed the argument-count check and every external step succeeded. -/
theorem selfhosted_exit_zero (argv : List String) (o : SelfhostedOracle)
    (h : (selfhostedMakewave argv o).exitCode = 0) :
    2 ≤ argv.length ∧ o.loadOk = true ∧ o.ttsOk = true ∧ o.exportOk = true := by
  unfold selfhostedMakewave at h
  by_cases c1 : argv.length < 2
  · simp [c1] at h
  · by_cases c2 : o.loadOk = false
    · simp [c1, c2] at h
    · by_cases c3 : o.ttsOk = false
      · simp [c1, c2, c3] at h
      · by_cases c4 : o.exportOk = false
        · simp [c1, c2, c3, c4] at h
        · refine ⟨Nat.not_lt.mp c1, ?_, ?_, ?_⟩ <;> simp_all [Bool.not_eq_false]

/-- Claim C1: invoking either script with only the program name prints
the usage message, exits with status 1, writes no file, and makes no TTS
call — whatever the external world would have answered. -/
theorem c1_no_text_usage (prog : String) (o1 : MakewaveOracle) (o2 : SelfhostedOracle) :
    makewave [prog] o1 = ⟨[Event.print makewaveUsage], 1⟩ ∧
    selfhostedMakewave [prog] o2 = ⟨[Event.print selfhostedUsage], 1⟩ ∧
    writesOf (makewave [prog] o1).trace = [] ∧
    ttsTexts (makewave [prog] o1).trace = [] ∧
    writesOf (selfhostedMakewave [prog] o2).trace = [] ∧
    ttsTexts (selfhostedMakewave [prog] o2).trace = [] :=
  ⟨rfl, rfl, rfl, rfl, rfl, rfl⟩

/-- Claim C2 counterexample: on a successful `makewave.py` run the last
content written to `test.wav` is a 48000 Hz buffer, not the 16000 Hz the
claim asserts (the script normalizes with set_frame_rate(48000) before
the WAV export). -/
theorem c2_counterexample :
    (makewave ["makewave.py", "hello"] mwOracleOk).exitCode = 0 ∧
    (lastWrite (makewave ["makewave.py", "hello"] mwOracleOk).trace "test.wav").map
        (fun c => c.buf.frameRate) = some 48000 ∧
    ¬ (lastWrite (makewave ["makewave.py", "hello"] mwOracleOk).trace "test.wav").map
        (fun c => c.buf.frameRate) = some 16000 := by
  refine ⟨rfl, rfl, ?_⟩
  have h : (lastWrite (makewave ["makewave.py", "hello"] mwOracleOk).trace "test.wav").map
      (fun c => c.buf.frameRate) = some 48000 := rfl
  rw [h]
  simp

/-- Claim C2 (amended): after a successful run, the `test.wav` written by
`selfhosted-makewave.py` is PCM WAV, 16-bit, mono, 16000 Hz, while the
`test.wav` written by `makewave.py` is PCM WAV, 16-bit, mono, 48000 Hz
(its buffer is normalized to 48000 Hz before the WAV export). -/
theorem c2_amended (argv1 argv2 : List String) (o1 : MakewaveOracle)
    (o2 : SelfhostedOracle)
    (hm : (makewave argv1 o1).exitCode = 0)
    (hs : (selfhostedMakewave argv2 o2).exitCode = 0) :
    (lastWrite (makewave argv1 o1).trace "test.wav").map
        (fun c => (c.format, c.buf)) = some ("wav", ⟨48000, 1, 2⟩) ∧
    (lastWrite (selfhostedMakewave argv2 o2).trace "test.wav").map
        (fun c => (c.format, c.buf)) = some ("wav", ⟨16000, 1, 2⟩) := by
  obtain ⟨h1, h2, h3, h4, h5, h6⟩ := makewave_exit_zero argv1 o1 hm
  obtain ⟨g1, g2, g3, g4⟩ := selfhosted_exit_zero argv2 o2 hs
  have hlt : ¬ argv1.length < 2 := Nat.not_lt.mpr h1
  have glt : ¬ argv2.length < 2 := Nat.not_lt.mpr g1
  constructor
  · by_cases h7 : o1.aacExportOk <;>
      simp [makewave, hlt, h2, h3, h4, h5, h6, h7, lastWrite, writesOf,
        Audio.setFrameRate, Audio.setChannels, Audio.setSampleWidth]
  · simp [selfhostedMakewave, glt, g2, g3, g4, lastWrite, writesOf,
      Audio.setFrameRate, Audio.setChannels, Audio.setSampleWidth]

/-- Witness for C2 (amended) at concrete inputs. -/
theorem c2_amended_witness :
    (lastWrite (makewave ["makewave.py", "hello"] mwOracleOk).trace "test.wav").map
        (fun c => (c.format, c.buf)) = some ("wav", ⟨48000, 1, 2⟩) ∧
    (lastWrite (selfhostedMakewave ["selfhosted-makewave.py", "hello"] shOracleOk).trace
        "test.wav").map
        (fun c => (c.format, c.buf)) = some ("wav", ⟨16000, 1, 2⟩) :=
  c2_amended ["makewave.py", "hello"] ["selfhosted-makewave.py", "hello"]
    mwOracleOk shOracleOk rfl rfl

/-- Claim C3: in `makewave.py`, whenever the AAC export step raises (all
earlier mandatory steps having succeeded so the step is reached), the
error is caught: the run exits with status 0 and its stdout is exactly
the four format confirmations (so the `test.flac` confirmation precedes
the warning), then the warning line — the fixed text containing the
literal substring `Failed to create AAC file` followed by the underlying
error detail — and then the final success line. -/
theorem c3_aac_soft_fail (argv : List String) (o : MakewaveOracle)
    (h1 : 2 ≤ argv.length) (h2 : o.ttsOk = true) (h3 : o.wavExportOk = true)
    (h4 : o.oggExportOk = true) (h5 : o.opusencExit = 0) (h6 : o.flacExportOk = true)
    (h7 : o.aacExportOk = false) :
    (makewave argv o).exitCode = 0 ∧
    (makewave argv o).stdout =
      ["WAV file saved as test.wav",
       "OGG/Vorbis file saved as test.ogg",
       "Opus file saved as test.opus",
       "FLAC file saved as test.flac",
       aacWarn ++ o.aacError,
       "\nAll audio files generated successfully!"] := by
  have hlt : ¬ argv.length < 2 := Nat.not_lt.mpr h1
  constructor <;>
    simp [makewave, hlt, h2, h3, h4, h5, h6, h7, RunResult.stdout]

/-- Witness for C3 at a concrete input whose AAC export fails. -/
theorem c3_aac_soft_fail_witness :
    (makewave ["makewave.py", "hi"] mwOracleAacFail).exitCode = 0 ∧
    (makewave ["makewave.py", "hi"] mwOracleAacFail).stdout =
      ["WAV file saved as test.wav",
       "OGG/Vorbis file saved as test.ogg",
       "Opus file saved as test.opus",
       "FLAC file saved as test.flac",
       aacWarn ++ "encoder not found",
       "\nAll audio files generated successfully!"] :=
  c3_aac_soft_fail ["makewave.py", "hi"] mwOracleAacFail (by decide)
    rfl rfl rfl rfl rfl rfl

/-- Claim C4 counterexample: a single empty-string argument yields an
empty joined text, yet the program does not terminate with a usage
message — the length check passes, synthesis is attempted with the empty
text, and with cooperating externals the run exits with status 0. -/
theorem c4_counterexample :
    (makewave ["makewave.py", ""] mwOracleOk).exitCode = 0 ∧
    Event.tts "" ∈ (makewave ["makewave.py", ""] mwOracleOk).trace ∧
    Event.print makewaveUsage ∉ (makewave ["makewave.py", ""] mwOracleOk).trace :=
  ⟨rfl, by decide, by decide⟩

/-- Claim C4 (amended): the scripts validate only the argument count,
not text emptiness.  With at least one text argument — even one whose
joined text is empty — neither script prints its usage message, and
synthesis is attempted with the joined text (for the self-hosted script,
once the model has loaded). -/
theorem c4_amended (argv : List String) (o1 : MakewaveOracle) (o2 : SelfhostedOracle)
    (h : 2 ≤ argv.length) :
    (Event.tts (" ".intercalate (argv.drop 1)) ∈ (makewave argv o1).trace ∧
      Event.print makewaveUsage ∉ (makewave argv o1).trace) ∧
    ((o2.loadOk = true →
        Event.tts (" ".intercalate (argv.drop 1)) ∈ (selfhostedMakewave argv o2).trace) ∧
      Event.print selfhostedUsage ∉ (selfhostedMakewave argv o2).trace) := by
  have hlt : ¬ argv.length < 2 := Nat.not_lt.mpr h
  refine ⟨⟨?_, ?_⟩, ?_, ?_⟩
  · by_cases c2 : o1.ttsOk <;> by_cases c3 : o1.wavExportOk <;>
    by_cases c4 : o1.oggExportOk <;> by_cases c5 : o1.opusencExit = 0 <;>
    by_cases c6 : o1.flacExportOk <;> by_cases c7 : o1.aacExportOk <;>
      simp [makewave, hlt, c2, c3, c4, c5, c6, c7]
  · by_cases c2 : o1.ttsOk <;> by_cases c3 : o1.wavExportOk <;>
    by_cases c4 : o1.oggExportOk <;> by_cases c5 : o1.opusencExit = 0 <;>
    by_cases c6 : o1.flacExportOk <;> by_cases c7 : o1.aacExportOk <;>
      simp [makewave, hlt, c2, c3, c4, c5, c6, c7, makewaveUsage, usage_ne_aacWarn]
  · intro hl
    by_cases g3 : o2.ttsOk <;> by_cases g4 : o2.exportOk <;>
      simp [selfhostedMakewave, hlt, hl, g3, g4]
  · by_cases g2 : o2.loadOk <;> by_cases g3 : o2.ttsOk <;> by_cases g4 : o2.exportOk <;>
      simp [selfhostedMakewave, hlt, g2, g3, g4, selfhostedUsage]

/-- Witness for C4 (amended) at the empty-text input. -/
theorem c4_amended_witness :
    (Event.tts "" ∈ (makewave ["makewave.py", ""] mwOracleOk).trace ∧
      Event.print makewaveUsage ∉ (makewave ["makewave.py", ""] mwOracleOk).trace) ∧
    (Event.tts "" ∈ (selfhostedMakewave ["makewave.py", ""] shOracleOk).trace ∧
      Event.print selfhostedUsage ∉ (selfhostedMakewave ["makewave.py", ""] shOracleOk).trace) := by
  have h := c4_amended ["makewave.py", ""] mwOracleOk shOracleOk (by decide)
  exact ⟨h.1, h.2.1 rfl, h.2.2⟩

/-- Claim C5: whenever `makewave.py` reaches the Opus step (all earlier
steps succeeded), it spawns the dedicated external Opus encoder with
exactly the arguments `--bitrate 64 test.wav test.opus`; and if that
encoder exits with a non-zero status, the script aborts with exit
status 1 (the subprocess call is checked). -/
theorem c5_opusenc_args (argv : List String) (o : MakewaveOracle)
    (h1 : 2 ≤ argv.length) (h2 : o.ttsOk = true) (h3 : o.wavExportOk = true)
    (h4 : o.oggExportOk = true) :
    Event.spawn "opusenc" ["--bitrate", "64", "test.wav", "test.opus"]
        ∈ (makewave argv o).trace ∧
    (o.opusencExit ≠ 0 → (makewave argv o).exitCode = 1) := by
  have hlt : ¬ argv.length < 2 := Nat.not_lt.mpr h1
  constructor
  · by_cases c5 : o.opusencExit = 0 <;>
    by_cases c6 : o.flacExportOk <;>
    by_cases c7 : o.aacExportOk <;>
      simp [makewave, hlt, h2, h3, h4, c5, c6, c7]
  · intro hne
    simp [makewave, hlt, h2, h3, h4, hne]

/-- Witness for C5 at a concrete input where `opusenc` exits 1. -/
theorem c5_opusenc_args_witness :
    Event.spawn "opusenc" ["--bitrate", "64", "test.wav", "test.opus"]
        ∈ (makewave ["makewave.py", "hi"] mwOracleOpusFail).trace ∧
    (makewave ["makewave.py", "hi"] mwOracleOpusFail).exitCode = 1 := by
  have h := c5_opusenc_args ["makewave.py", "hi"] mwOracleOpusFail (by decide) rfl rfl rfl
  exact ⟨h.1, h.2 (by decide)⟩

/-- Claim C6: in `makewave.py`, a failing FLAC export is not caught: the
run ends right there with exit status 1 — its whole observable behavior
is the trace up to the Opus confirmation, with no FLAC confirmation, no
warning line, and no final success line. -/
theorem c6_flac_hard_fail (argv : List String) (o : MakewaveOracle)
    (h1 : 2 ≤ argv.length) (h2 : o.ttsOk = true) (h3 : o.wavExportOk = true)
    (h4 : o.oggExportOk = true) (h5 : o.opusencExit = 0)
    (h6 : o.flacExportOk = false) :
    makewave argv o =
      ⟨[Event.tts (" ".intercalate (argv.drop 1)),
        Event.write "test.mp3" ⟨"mp3", none, [], o.mp3Audio⟩,
        Event.write "test.wav" ⟨"wav", none, [],
          ((o.mp3Audio.setFrameRate 48000).setChannels 1).setSampleWidth 2⟩,
        Event.print "WAV file saved as test.wav",
        Event.write "test.ogg" ⟨"ogg", some "libvorbis", ["-ar", "16000", "-ac", "1"],
          ((o.mp3Audio.setFrameRate 48000).setChannels 1).setSampleWidth 2⟩,
        Event.print "OGG/Vorbis file saved as test.ogg",
        Event.spawn "opusenc" ["--bitrate", "64", "test.wav", "test.opus"],
        Event.print "Opus file saved as test.opus"], 1⟩ := by
  have hlt : ¬ argv.length < 2 := Nat.not_lt.mpr h1
  simp [makewave, hlt, h2, h3, h4, h5, h6]

/-- Witness for C6 at a concrete input whose FLAC export fails. -/
theorem c6_flac_hard_fail_witness :
    makewave ["makewave.py", "hi"] mwOracleFlacFail =
      ⟨[Event.tts "hi",
        Event.write "test.mp3" ⟨"mp3", none, [], ⟨24000, 2, 2⟩⟩,
        Event.write "test.wav" ⟨"wav", none, [], ⟨48000, 1, 2⟩⟩,
        Event.print "WAV file saved as test.wav",
        Event.write "test.ogg" ⟨"ogg", some "libvorbis", ["-ar", "16000", "-ac", "1"],
          ⟨48000, 1, 2⟩⟩,
        Event.print "OGG/Vorbis file saved as test.ogg",
        Event.spawn "opusenc" ["--bitrate", "64", "test.wav", "test.opus"],
        Event.print "Opus file saved as test.opus"], 1⟩ :=
  c6_flac_hard_fail ["makewave.py", "hi"] mwOracleFlacFail (by decide) rfl rfl rfl rfl rfl

/-- Claim C7: a successful `selfhosted-makewave.py` run performs exactly
two file writes, both to `test.wav` (no `.ogg`, `.opus`, `.flac`,
`.aac`, or `.mp3` file is ever written); the content finally on
`test.wav` is WAV with a 16000 Hz, mono, 16-bit buffer; and the run
exits with status 0. -/
theorem c7_selfhosted_only_wav (argv : List String) (o : SelfhostedOracle)
    (h1 : 2 ≤ argv.length) (h2 : o.loadOk = true) (h3 : o.ttsOk = true)
    (h4 : o.exportOk = true) :
    ((writesOf (selfhostedMakewave argv o).trace).map fun x => x.1) =
        ["test.wav", "test.wav"] ∧
    (lastWrite (selfhostedMakewave argv o).trace "test.wav").map
        (fun c => (c.format, c.buf)) = some ("wav", ⟨16000, 1, 2⟩) ∧
    (selfhostedMakewave argv o).exitCode = 0 := by
  have hlt : ¬ argv.length < 2 := Nat.not_lt.mpr h1
  refine ⟨?_, ?_, ?_⟩ <;>
    simp [selfhostedMakewave, hlt, h2, h3, h4, lastWrite, writesOf,
      Audio.setFrameRate, Audio.setChannels, Audio.setSampleWidth]

/-- Witness for C7 at a concrete input. -/
theorem c7_selfhosted_only_wav_witness :
    ((writesOf (selfhostedMakewave ["selfhosted-makewave.py", "hi"] shOracleOk).trace).map
        fun x => x.1) = ["test.wav", "test.wav"] ∧
    (lastWrite (selfhostedMakewave ["selfhosted-makewave.py", "hi"] shOracleOk).trace
        "test.wav").map (fun c => (c.format, c.buf)) = some ("wav", ⟨16000, 1, 2⟩) ∧
    (selfhostedMakewave ["selfhosted-makewave.py", "hi"] shOracleOk).exitCode = 0 :=
  c7_selfhosted_only_wav ["selfhosted-makewave.py", "hi"] shOracleOk (by decide) rfl rfl rfl

/-- Claim C8: with at least one text token, each script makes exactly one
TTS call, and the text it passes is the single string obtained by joining
all arguments after the program name with single spaces (for the
self-hosted script, once its model has loaded). -/
theorem c8_joined_text (argv : List String) (o1 : MakewaveOracle) (o2 : SelfhostedOracle)
    (h : 2 ≤ argv.length) :
    ttsTexts (makewave argv o1).trace = [" ".intercalate (argv.drop 1)] ∧
    (o2.loadOk = true →
      ttsTexts (selfhostedMakewave argv o2).trace = [" ".intercalate (argv.drop 1)]) := by
  have hlt : ¬ argv.length < 2 := Nat.not_lt.mpr h
  constructor
  · by_cases c2 : o1.ttsOk <;> by_cases c3 : o1.wavExportOk <;>
    by_cases c4 : o1.oggExportOk <;> by_cases c5 : o1.opusencExit = 0 <;>
    by_cases c6 : o1.flacExportOk <;> by_cases c7 : o1.aacExportOk <;>
      simp [makewave, hlt, c2, c3, c4, c5, c6, c7, ttsTexts]
  · intro hl
    by_cases g3 : o2.ttsOk <;> by_cases g4 : o2.exportOk <;>
      simp [selfhostedMakewave, hlt, hl, g3, g4, ttsTexts]

/-- Witness for C8 at a two-token input: both scripts synthesize once,
for the joined string. -/
theorem c8_joined_text_witness :
    ttsTexts (makewave ["makewave.py", "hello", "world"] mwOracleOk).trace = ["hello world"] ∧
    ttsTexts (selfhostedMakewave ["makewave.py", "hello", "world"] shOracleOk).trace =
      ["hello world"] := by
  have h := c8_joined_text ["makewave.py", "hello", "world"] mwOracleOk shOracleOk (by decide)
  exact ⟨h.1, h.2 rfl⟩

/-- Claim C9: `makewave.py` contains no deletion step at all — no run,
whatever the argument vector and the external outcomes, ever deletes a
file — and after every run that exits with status 0 the intermediate
`test.mp3` is present on disk. -/
theorem c9_mp3_persists (argv : List String) (o : MakewaveOracle) :
    deletesOf (makewave argv o).trace = [] ∧
    ((makewave argv o).exitCode = 0 →
      existsAfter (makewave argv o).trace "test.mp3" = true) := by
  constructor
  · by_cases c1 : argv.length < 2 <;>
    by_cases c2 : o.ttsOk <;> by_cases c3 : o.wavExportOk <;>
    by_cases c4 : o.oggExportOk <;> by_cases c5 : o.opusencExit = 0 <;>
    by_cases c6 : o.flacExportOk <;> by_cases c7 : o.aacExportOk <;>
      simp [makewave, c1, c2, c3, c4, c5, c6, c7, deletesOf]
  · intro h
    obtain ⟨h1, h2, h3, h4, h5, h6⟩ := makewave_exit_zero argv o h
    have hlt : ¬ argv.length < 2 := Nat.not_lt.mpr h1
    by_cases h7 : o.aacExportOk <;>
      simp [makewave, hlt, h2, h3, h4, h5, h6, h7, existsAfter]

/-- Witness for C9 at a concrete successful run. -/
theorem c9_mp3_persists_witness :
    deletesOf (makewave ["makewave.py", "hi"] mwOracleOk).trace = [] ∧
    existsAfter (makewave ["makewave.py", "hi"] mwOracleOk).trace "test.mp3" = true := by
  have h := c9_mp3_persists ["makewave.py", "hi"] mwOracleOk
  exact ⟨h.1, h.2 rfl⟩

/-- Claim C10: each script is deterministic in its inputs: for a fixed
argument vector and fixed outcomes of all external calls, two runs have
identical stdout and identical exit status. -/
theorem c10_deterministic (a1 a2 : List String) (p1 p2 : MakewaveOracle)
    (q1 q2 : SelfhostedOracle) (ha : a1 = a2) (hp : p1 = p2) (hq : q1 = q2) :
    ((makewave a1 p1).stdout = (makewave a2 p2).stdout ∧
      (makewave a1 p1).exitCode = (makewave a2 p2).exitCode) ∧
    ((selfhostedMakewave a1 q1).stdout = (selfhostedMakewave a2 q2).stdout ∧
      (selfhostedMakewave a1 q1).exitCode = (selfhostedMakewave a2 q2).exitCode) := by
  subst ha; subst hp; subst hq
  exact ⟨⟨rfl, rfl⟩, ⟨rfl, rfl⟩⟩

/-- Witness for C10 at a concrete input. -/
theorem c10_deterministic_witness :
    ((makewave ["makewave.py", "hi"] mwOracleOk).stdout =
        (makewave ["makewave.py", "hi"] mwOracleOk).stdout ∧
      (makewave ["makewave.py", "hi"] mwOracleOk).exitCode =
        (makewave ["makewave.py", "hi"] mwOracleOk).exitCode) ∧
    ((selfhostedMakewave ["makewave.py", "hi"] shOracleOk).stdout =
        (selfhostedMakewave ["makewave.py", "hi"] shOracleOk).stdout ∧
      (selfhostedMakewave ["makewave.py", "hi"] shOracleOk).exitCode =
        (selfhostedMakewave ["makewave.py", "hi"] shOracleOk).exitCode) :=
  c10_deterministic ["makewave.py", "hi"] ["makewave.py", "hi"]
    mwOracleOk mwOracleOk shOracleOk shOracleOk rfl rfl rfl
